import Mathlib

/-!
Shallow embedding of the tuta-pamodzi tutoring-marketplace application
(`models.py`, `tutor_routes.py`, `main_routes.py`, `admin_routes.py`,
`lead_tutor_routes.py`, `app.py`).

Database rows become Lean structures; a `DB` value is the whole relational
state (lists of rows plus the singleton `SystemSetting` row with id 1).
Route handlers become functions from the database state and the request
data to the new state and a response value.  The Flask `flash`/`redirect`
pair is modelled by a `Resp.redirect` constructor carrying the endpoint,
the flash message and its category; routes that can render a page get
their own response type.  Python floats (`amount`, `commission_rate`) are
modelled as rationals; dates as natural-number day stamps.  Autoincrement
primary keys and audit timestamps that no route reads (`Payment.id`,
`TutorReview.id` / `review_date`, `Document.upload_date`,
`SystemSetting.last_updated`) are omitted from the row structures.
-/

namespace TutaPamodzi

/-- One row of the `Users` table (`models.py`, class `User`).

The mapped columns are `username … is_paid_current_month`.  The extra
field `is_approved` models the *dynamic instance attribute* that
`tutor_routes.approve_student` creates by assigning
`student.is_approved = True`: it is not a mapped column of the model
(the mapped flag is `is_student_approved`), so it starts out absent
(`none`) and is never read by `is_content_authorized`. -/
structure User where
  id : Nat
  username : String
  full_name : String
  role : String
  tutor_status : String := "approved"
  tutor_id : Option Nat := none
  university_id : Option Nat := none
  is_student_approved : Bool := false
  is_paid_current_month : Bool := false
  is_approved : Option Bool := none
  deriving Repr, DecidableEq

/-- Embedding of `User.is_content_authorized` (`models.py` lines 110-130):
students need `is_student_approved` and `is_paid_current_month`;
tutors and lead tutors need `tutor_status == "approved"`;
every other role (the Admin branch) gets `True`. -/
def User.is_content_authorized (u : User) : Bool :=
  if u.role = "Student" then
    u.is_student_approved && u.is_paid_current_month
  else if u.role = "Tutor" ∨ u.role = "Lead Tutor" then
    u.tutor_status = "approved"
  else
    true

/-- One row of the `Universities` table. -/
structure University where
  id : Nat
  name : String
  deriving Repr, DecidableEq

/-- One row of the `Categories` table (unique `(university_id, name)`). -/
structure Category where
  id : Nat
  university_id : Nat
  name : String
  deriving Repr, DecidableEq

/-- One row of the `Courses` table (unique `(category_id, name)` by the
`__table_args__` of the model; the admin route additionally checks the code). -/
structure Course where
  id : Nat
  category_id : Nat
  name : String
  code : String
  deriving Repr, DecidableEq

/-- One row of the `Documents` table. -/
structure Document where
  id : Nat
  title : String
  file_path : String
  course_id : Nat
  uploader_tutor_id : Nat
  deriving Repr, DecidableEq

/-- One row of the `Payments` table. -/
structure Payment where
  student_id : Nat
  tutor_id : Nat
  amount : ℚ
  payment_date : Nat
  commission_amount : ℚ
  deriving Repr, DecidableEq

/-- One row of the `TutorReviews` table (unique `(tutor_id, student_id)`). -/
structure TutorReview where
  tutor_id : Nat
  student_id : Nat
  rating : Nat
  review_text : String
  content_clear_score : Nat
  tutor_responsive_score : Nat
  deriving Repr, DecidableEq

/-- The singleton `SystemSettings` row (id 1). -/
structure SystemSetting where
  commission_rate : ℚ
  deriving Repr, DecidableEq

/-- The whole relational state.  `setting` is `db.session.get(SystemSetting, 1)`:
`none` when that row does not exist. -/
structure DB where
  users : List User := []
  universities : List University := []
  categories : List Category := []
  courses : List Course := []
  documents : List Document := []
  payments : List Payment := []
  reviews : List TutorReview := []
  setting : Option SystemSetting := none
  deriving Repr, DecidableEq

/-- Primary-key lookup `db.session.get(User, uid)`. -/
def findUser (db : DB) (uid : Nat) : Option User :=
  db.users.find? (fun u => u.id = uid)

/-- Primary-key lookup `db.session.get(Document, did)`. -/
def findDocument (db : DB) (did : Nat) : Option Document :=
  db.documents.find? (fun d => d.id = did)

/-- Follow the `Document.course` relationship. -/
def findCourse (db : DB) (cid : Nat) : Option Course :=
  db.courses.find? (fun c => c.id = cid)

/-- Follow the `Course.category` relationship. -/
def findCategory (db : DB) (cid : Nat) : Option Category :=
  db.categories.find? (fun c => c.id = cid)

/-- Update the row with primary key `uid` in place (the ORM mutates the
fetched object and commits). -/
def updateUser (db : DB) (uid : Nat) (f : User → User) : DB :=
  { db with users := db.users.map (fun u => if u.id = uid then f u else u) }

/-- The chain `document.course.category.university_id`: `none` when a foreign key
dangles (in Python that would raise, and no route reaches the comparison
with a dangling key on a well-formed database). -/
def documentUniversity (db : DB) (d : Document) : Option Nat :=
  (findCourse db d.course_id).bind fun c =>
    (findCategory db c.category_id).map fun cat => cat.university_id

/-- The expression `system_setting.commission_rate if system_setting else 0.0`
(`tutor_routes.py` lines 106-107). -/
def commissionRate (db : DB) : ℚ :=
  match db.setting with
  | some st => st.commission_rate
  | none => 0

/-- A `flash(...); redirect(url_for(endpoint))` response. -/
inductive Resp where
  | redirect (endpoint : String) (flash : String) (category : String)
  deriving Repr, DecidableEq

/-- Embedding of `tutor_routes.approve_student` (lines 74-88), with the `tutor_required`
decorator inlined.  The handler assigns `student.is_approved = True` —
a dynamic attribute, not the mapped column `is_student_approved` —
and commits. -/
def approve_student (db : DB) (current_user : User) (student_id : Nat) :
    DB × Resp :=
  if current_user.role ≠ "Tutor" then
    (db, .redirect "main.index"
      "Access denied. You must be logged in as a Tutor." "danger")
  else
    match findUser db student_id with
    | none =>
        (db, .redirect "tutor.dashboard"
          "Student not found or unauthorized access." "danger")
    | some student =>
        if student.tutor_id ≠ some current_user.id ∨ student.role ≠ "Student" then
          (db, .redirect "tutor.dashboard"
            "Student not found or unauthorized access." "danger")
        else
          (updateUser db student_id (fun s => { s with is_approved := some true }),
           .redirect "tutor.dashboard"
             (student.full_name ++ " has been approved and is ready for payment.")
             "success")

/-- Embedding of `tutor_routes.record_payment` (lines 90-125), `tutor_required` inlined.
`fee_amount` is `request.form.get("fee_amount", type=float)` (`none` when
missing or unparsable); `today` is `date.today()`.  The success flash
interpolates the amount (`ZMW{fee_amount:.2f}`); the model keeps the
surrounding text. -/
def record_payment (db : DB) (current_user : User) (student_id : Nat)
    (fee_amount : Option ℚ) (today : Nat) : DB × Resp :=
  if current_user.role ≠ "Tutor" then
    (db, .redirect "main.index"
      "Access denied. You must be logged in as a Tutor." "danger")
  else
    match findUser db student_id with
    | none =>
        (db, .redirect "tutor.dashboard"
          "Student not found or unauthorized access." "danger")
    | some student =>
        if student.tutor_id ≠ some current_user.id ∨ student.role ≠ "Student" then
          (db, .redirect "tutor.dashboard"
            "Student not found or unauthorized access." "danger")
        else
          match fee_amount with
          | none =>
              (db, .redirect "tutor.dashboard" "Invalid fee amount entered." "danger")
          | some fee =>
              if fee ≤ 0 then
                (db, .redirect "tutor.dashboard" "Invalid fee amount entered." "danger")
              else
                let payment : Payment :=
                  { student_id := student.id
                    tutor_id := current_user.id
                    amount := fee
                    payment_date := today
                    commission_amount := fee * commissionRate db }
                let db1 := { db with payments := db.payments ++ [payment] }
                let db2 := updateUser db1 student_id
                  (fun s => { s with is_paid_current_month := true })
                (db2, .redirect "tutor.dashboard"
                  ("Payment recorded for " ++ student.full_name ++
                   ". Access granted for the current month!") "success")

/-- Embedding of `lead_tutor_routes.approve_tutor` (lines 27-38), `lead_tutor_required`
inlined: only the `Lead Tutor` role passes the decorator. -/
def approve_tutor (db : DB) (current_user : User) (user_id : Nat) : DB × Resp :=
  if current_user.role ≠ "Lead Tutor" then
    (db, .redirect "main.index" "Access denied. You must be a Lead Tutor." "danger")
  else
    match findUser db user_id with
    | none =>
        (db, .redirect "lead_tutor.dashboard"
          "Invalid request. Tutor not found or already processed." "danger")
    | some t =>
        if t.role = "Tutor" ∧ t.tutor_status = "pending" then
          (updateUser db user_id (fun u => { u with tutor_status := "approved" }),
           .redirect "lead_tutor.dashboard"
             ("Tutor " ++ t.full_name ++ " has been approved.") "success")
        else
          (db, .redirect "lead_tutor.dashboard"
            "Invalid request. Tutor not found or already processed." "danger")

/-- Embedding of `lead_tutor_routes.reject_tutor` (lines 40-51), `lead_tutor_required`
inlined. -/
def reject_tutor (db : DB) (current_user : User) (user_id : Nat) : DB × Resp :=
  if current_user.role ≠ "Lead Tutor" then
    (db, .redirect "main.index" "Access denied. You must be a Lead Tutor." "danger")
  else
    match findUser db user_id with
    | none =>
        (db, .redirect "lead_tutor.dashboard"
          "Invalid request. Tutor not found or already processed." "danger")
    | some t =>
        if t.role = "Tutor" ∧ t.tutor_status = "pending" then
          (updateUser db user_id (fun u => { u with tutor_status := "rejected" }),
           .redirect "lead_tutor.dashboard"
             ("Tutor " ++ t.full_name ++ " has been rejected.") "warning")
        else
          (db, .redirect "lead_tutor.dashboard"
            "Invalid request. Tutor not found or already processed." "danger")

/-- Embedding of `admin_routes.manage_settings` (lines 128-144), validated-POST path.
`pct` is the `SystemSettingForm.commission_rate` integer; the form
validates with `DataRequired` (rejects 0) and `NumberRange(0, 100)`, so
the update runs only for `1 ≤ pct ≤ 100` and stores `pct / 100.0`.
When no `SystemSetting` row with id 1 exists, `setting` is `None` and
the attribute assignment raises before any commit, leaving the state
unchanged (`Option.map` on `none`). -/
def manage_settings (db : DB) (pct : ℤ) : DB :=
  if 1 ≤ pct ∧ pct ≤ 100 then
    match db.setting with
    | some st => { db with setting := some { st with commission_rate := (pct : ℚ) / 100 } }
    | none => db
  else db

/-- Response of `main_routes.student_content`: a redirect to the index, the
rendered `student_content_denied.html` page, or the rendered
`student_content.html` page carrying the fetched document list (the
template only groups that list by course; `flash` is the optional danger
message of the unlinked-university branch). -/
inductive ContentResp where
  | redirectIndex (flash : String) (category : String)
  | denied (flash : String)
  | content (documents : List Document) (flash : Option String)
  deriving Repr, DecidableEq

/-- The document list rendered by a `ContentResp`: only the
`student_content.html` page carries documents. -/
def listedDocuments : ContentResp → List Document
  | .content docs _ => docs
  | _ => []

/-- Embedding of `main_routes.student_content` (lines 237-285).  `login_required` is
assumed (an anonymous request never reaches the handler).  The Python
truthiness test `if not current_user.university_id` is false for `None`
and for `0`.  The query joins `Document → Course → Category` and filters
on the `university_id` of the student; the source additionally orders by
`(course_id, upload_date desc)`, which this model does not track. -/
def student_content (db : DB) (current_user : User) : ContentResp :=
  if current_user.role ≠ "Student" then
    .redirectIndex "Access denied. This page is only for students." "danger"
  else if ¬ current_user.is_content_authorized then
    .denied "Access denied. Please ensure your Tutor has approved your profile and recorded the monthly payment."
  else
    match current_user.university_id with
    | none =>
        .content [] (some "Your profile is not linked to a university. Please contact your Tutor.")
    | some uid =>
        if uid = 0 then
          .content [] (some "Your profile is not linked to a university. Please contact your Tutor.")
        else
          .content (db.documents.filter (fun d => documentUniversity db d = some uid)) none

/-- Response of `main_routes.download_document`: a redirect to the index or
to `main.student_content`, or the `send_from_directory` file response.
The source serves the basename of `file_path` from the upload folder;
the model identifies the served file by the stored `file_path` and does
not track the filesystem (`FileNotFoundError` is the one branch lost). -/
inductive DownloadResp where
  | redirectIndex (flash : String) (category : String)
  | redirectContent (flash : String) (category : String)
  | file (path : String)
  deriving Repr, DecidableEq

/-- Embedding of `main_routes.download_document` (lines 288-353), `login_required`
assumed. -/
def download_document (db : DB) (current_user : User) (document_id : Nat) :
    DownloadResp :=
  if current_user.role ≠ "Student" then
    .redirectIndex "Access denied." "danger"
  else
    match findDocument db document_id with
    | none => .redirectContent "Document not found." "danger"
    | some document =>
        if ¬ current_user.is_content_authorized then
          .redirectContent "Authorization required to download content." "warning"
        else if documentUniversity db document ≠ current_user.university_id then
          .redirectContent "Access denied to content outside your assigned university." "danger"
        else
          .file document.file_path

/-- The POSTed `TutorReviewForm` data (`forms.py`). -/
structure TutorReviewForm where
  rating : Nat
  review_text : String
  content_clear_score : Nat
  tutor_responsive_score : Nat
  deriving Repr, DecidableEq

/-- Validation `form.validate_on_submit()` for `TutorReviewForm`: the three rating
selects coerce to one of the choices 1-5 and the optional text is at
most 500 characters. -/
def reviewFormValid (f : TutorReviewForm) : Bool :=
  1 ≤ f.rating && f.rating ≤ 5 &&
  (1 ≤ f.content_clear_score && f.content_clear_score ≤ 5) &&
  (1 ≤ f.tutor_responsive_score && f.tutor_responsive_score ≤ 5) &&
  f.review_text.length ≤ 500

/-- Response of `main_routes.review_tutor`: redirect to the index, redirect
to `main.student_content`, or render `review_tutor.html` (GET, or a POST
that failed validation). -/
inductive ReviewResp where
  | redirectIndex (flash : String) (category : String)
  | redirectContent (flash : String) (category : String)
  | formPage
  deriving Repr, DecidableEq

/-- Embedding of `main_routes.review_tutor` (lines 355-413), `login_required` assumed.
`submitted` is true for a POST request (GET renders the form). -/
def review_tutor (db : DB) (current_user : User) (tutor_id : Nat)
    (form : TutorReviewForm) (submitted : Bool) : DB × ReviewResp :=
  if current_user.role ≠ "Student" then
    (db, .redirectIndex "Access denied. Only students can review tutors." "danger")
  else if current_user.tutor_id ≠ some tutor_id then
    (db, .redirectContent "Access denied. You can only review your assigned tutor." "danger")
  else
    match findUser db tutor_id with
    | none => (db, .redirectContent "Invalid tutor profile." "danger")
    | some t =>
        if t.role ≠ "Tutor" then
          (db, .redirectContent "Invalid tutor profile." "danger")
        else
          match db.reviews.find?
              (fun r => r.student_id = current_user.id ∧ r.tutor_id = tutor_id) with
          | some _ =>
              (db, .redirectContent
                "You have already submitted a review for this tutor." "warning")
          | none =>
              if submitted && reviewFormValid form then
                ({ db with reviews := db.reviews ++
                    [{ tutor_id := tutor_id
                       student_id := current_user.id
                       rating := form.rating
                       review_text := form.review_text
                       content_clear_score := form.content_clear_score
                       tutor_responsive_score := form.tutor_responsive_score }] },
                 .redirectContent
                   ("Thank you! Your review for " ++ t.full_name ++ " has been submitted.")
                   "success")
              else
                (db, .formPage)

/-- One validated POST to an admin route (`admin_routes.py`):
`manage_structure` (university or category branch), `manage_courses`,
or `manage_settings`. -/
inductive AdminOp where
  | addUniversity (name : String)
  | addCategory (university_id : Nat) (name : String)
  | addCourse (category_id : Nat) (name : String) (code : String)
  | setCommission (pct : ℤ)
  deriving Repr, DecidableEq

/-- The admin routes as one step function on the database state.

* `addUniversity` — `manage_structure`, `submit_uni` branch (lines 58-67):
  insert unless a university with that name exists.
* `addCategory` — `manage_structure`, `submit_cat` branch (lines 69-78):
  the `SelectField` choices are the existing universities, so validation
  fails for an unknown `university_id`; insert unless a category with
  that `(name, university_id)` exists.
* `addCourse` — `manage_courses` (lines 94-117): choices are the existing
  categories; the route refuses when a course with the same
  `(code, category_id)` exists; otherwise the insert commits unless the
  `UniqueConstraint (category_id, name)` of the model rejects it (the commit
  raises and nothing is persisted).
* `setCommission` — `manage_settings` (lines 128-144).

New rows get the next autoincrement id (one more than the row count;
rows are only ever appended). -/
def adminStep (db : DB) (op : AdminOp) : DB :=
  match op with
  | .addUniversity name =>
      if (db.universities.find? (fun u => u.name = name)).isSome then db
      else { db with universities := db.universities ++
              [{ id := db.universities.length + 1, name := name }] }
  | .addCategory uid name =>
      if (db.universities.find? (fun u => u.id = uid)).isNone then db
      else if (db.categories.find?
          (fun c => c.name = name ∧ c.university_id = uid)).isSome then db
      else { db with categories := db.categories ++
              [{ id := db.categories.length + 1, university_id := uid, name := name }] }
  | .addCourse cid name code =>
      if (db.categories.find? (fun c => c.id = cid)).isNone then db
      else if (db.courses.find?
          (fun c => c.code = code ∧ c.category_id = cid)).isSome then db
      else if (db.courses.find?
          (fun c => c.name = name ∧ c.category_id = cid)).isSome then db
      else { db with courses := db.courses ++
              [{ id := db.courses.length + 1, category_id := cid,
                 name := name, code := code }] }
  | .setCommission pct => manage_settings db pct

/-- Seeding `app.initialize_data()` on an empty database: the `SystemSetting` row
with id 1 at a 10% commission, the five seeded universities, and the
default admin user (id 1, the first autoincrement value). -/
def initDB : DB :=
  { users := [{ id := 1, username := "admin", full_name := "Lead Administrator",
                role := "Admin" }]
    universities := [{ id := 1, name := "UNZA" }, { id := 2, name := "CBU" },
                     { id := 3, name := "MU" }, { id := 4, name := "ZICAS" },
                     { id := 5, name := "Cavendish" }]
    setting := some { commission_rate := 1/10 } }

/-- The database states reachable from the seeded initial state through
the admin routes alone. -/
def runAdmin (ops : List AdminOp) : DB :=
  ops.foldl adminStep initDB

/-- No two `Course` rows share `(category_id, code)`. -/
def coursesCodeUnique (db : DB) : Prop :=
  db.courses.Pairwise (fun c1 c2 => ¬(c1.category_id = c2.category_id ∧ c1.code = c2.code))

/-- No two `TutorReview` rows share `(tutor_id, student_id)` — the `UniqueConstraint`
of the model. -/
def reviewsUniquePerPair (db : DB) : Prop :=
  db.reviews.Pairwise (fun r1 r2 => ¬(r1.student_id = r2.student_id ∧ r1.tutor_id = r2.tutor_id))

/-- The served-file / redirect distinction of a `DownloadResp`. -/
def DownloadResp.isFile : DownloadResp → Bool
  | .file _ => true
  | _ => false

/-- The flash message and category a `DownloadResp` redirect carries
(`none` for a file response). -/
def DownloadResp.redirectFlash : DownloadResp → Option (String × String)
  | .redirectIndex m c => some (m, c)
  | .redirectContent m c => some (m, c)
  | .file _ => none

/-! ### Sample data for witnesses -/

/-- Sample users exercising the three branches of `is_content_authorized`. -/
def sampleStudent : User :=
  { id := 2, username := "stud", full_name := "Sam Student", role := "Student",
    is_student_approved := true, is_paid_current_month := false }

/-- A pending tutor. -/
def sampleTutor : User :=
  { id := 3, username := "tut", full_name := "Tina Tutor", role := "Tutor",
    tutor_status := "pending" }

/-- The seeded admin. -/
def sampleAdmin : User :=
  { id := 1, username := "admin", full_name := "Lead Administrator", role := "Admin" }

/-- A user carrying a role string the code never mentions. -/
def mysteryUser : User :=
  { id := 9, username := "m", full_name := "M", role := "Moderator",
    tutor_status := "pending", is_student_approved := false,
    is_paid_current_month := false }

/-- A registered but not yet approved student (fresh registration defaults:
`is_student_approved = is_paid_current_month = False`). -/
def freshStudent : User :=
  { id := 4, username := "fresh", full_name := "Fiona Fresh", role := "Student",
    tutor_id := some 3, university_id := some 1 }

/-- A fully gated student: approved and paid, linked to university 1. -/
def paidStudent : User :=
  { id := 7, username := "paid", full_name := "Paula Paid", role := "Student",
    tutor_id := some 3, university_id := some 1,
    is_student_approved := true, is_paid_current_month := true }

/-- A document uploaded for course 1 of university 1. -/
def sampleDoc : Document :=
  { id := 1, title := "Notes", file_path := "documents/1_3_notes.pdf",
    course_id := 1, uploader_tutor_id := 3 }

/-- A database holding a document the fresh student must not see. -/
def deniedDB : DB :=
  { users := [sampleAdmin, sampleTutor, freshStudent]
    universities := [{ id := 1, name := "UNZA" }]
    categories := [{ id := 1, university_id := 1, name := "School of Engineering" }]
    courses := [{ id := 1, category_id := 1, name := "Maths", code := "CSC3000" }]
    documents := [sampleDoc]
    setting := some { commission_rate := 1/10 } }

/-- The tutor of the approve-then-pay scenario. -/
def scenarioTutor : User :=
  { id := 1, username := "tutor1", full_name := "Tsomas Tutor", role := "Tutor" }

/-- The student of the approve-then-pay scenario, assigned to
`scenarioTutor`, with the registration defaults
`is_student_approved = is_paid_current_month = False`. -/
def scenarioStudent : User :=
  { id := 2, username := "stud1", full_name := "Stella Student", role := "Student",
    tutor_id := some 1, university_id := some 1 }

/-- The database of the approve-then-pay scenario. -/
def scenarioDB : DB :=
  { users := [scenarioTutor, scenarioStudent]
    universities := [{ id := 1, name := "UNZA" }]
    setting := some { commission_rate := 1/10 } }

/-- A Lead Tutor who can process pending tutors. -/
def leadTutorUser : User :=
  { id := 5, username := "lead", full_name := "Lana Lead", role := "Lead Tutor" }

/-- A tutor awaiting approval. -/
def pendingTutor : User :=
  { id := 6, username := "pend", full_name := "Pat Pending", role := "Tutor",
    tutor_status := "pending" }

/-- A database with a Lead Tutor and a pending tutor. -/
def leadDB : DB :=
  { users := [leadTutorUser, pendingTutor] }

/-- A database with the seeded admin and a pending tutor. -/
def adminDB : DB :=
  { users := [sampleAdmin, pendingTutor] }

/-- A run of admin posts: one category under UNZA, one course, and a
second course reusing the same code in the same category (refused). -/
def courseOps : List AdminOp :=
  [AdminOp.addCategory 1 "School of Engineering",
   AdminOp.addCourse 1 "Maths" "CSC3000",
   AdminOp.addCourse 1 "Maths II" "CSC3000"]

/-- An existing review by student 7 of tutor 3. -/
def sampleReview : TutorReview :=
  { tutor_id := 3, student_id := 7, rating := 5, review_text := "Great",
    content_clear_score := 5, tutor_responsive_score := 4 }

/-- A valid review form submission. -/
def sampleForm : TutorReviewForm :=
  { rating := 4, review_text := "Still great",
    content_clear_score := 4, tutor_responsive_score := 4 }

/-- A database in which student 7 has already reviewed tutor 3. -/
def reviewDB : DB :=
  { users := [sampleTutor, paidStudent]
    reviews := [sampleReview] }

/-! ### Helper lemmas -/

/-- Updating the row with key `uid` in place commutes with looking that key
up, provided the update keeps the primary key. -/
theorem find?_map_update (l : List User) (uid : Nat) (f : User → User)
    (hf : ∀ u, (f u).id = u.id) :
    (l.map (fun u => if u.id = uid then f u else u)).find? (fun u => u.id = uid)
      = (l.find? (fun u => u.id = uid)).map f := by
  induction l with
  | nil => rfl
  | cons a l ih =>
    by_cases h : a.id = uid
    · simp [List.find?, h, hf]
    · simp [List.find?, h, ih]

/-- Lookup `findUser` after `updateUser` at the same key returns the updated row. -/
theorem findUser_updateUser (db : DB) (uid : Nat) (f : User → User)
    (hf : ∀ u, (f u).id = u.id) :
    findUser (updateUser db uid f) uid = (findUser db uid).map f :=
  find?_map_update db.users uid f hf

/-! ### The claims -/

/-- C2: `is_content_authorized` returns, for a Student, exactly
`is_student_approved && is_paid_current_month`; for a Tutor or Lead Tutor,
exactly `tutor_status == "approved"`; and `True` for an Admin. -/
theorem is_content_authorized_spec (u : User) :
    (u.role = "Student" →
      u.is_content_authorized = (u.is_student_approved && u.is_paid_current_month)) ∧
    (u.role = "Tutor" ∨ u.role = "Lead Tutor" →
      u.is_content_authorized = decide (u.tutor_status = "approved")) ∧
    (u.role = "Admin" → u.is_content_authorized = true) := by
  refine ⟨fun h => ?_, fun h => ?_, fun h => ?_⟩
  · simp [User.is_content_authorized, h]
  · rcases h with h | h <;> simp [User.is_content_authorized, h]
  · simp [User.is_content_authorized, h]

/-- Witness for C2 at the three sample users. -/
theorem is_content_authorized_spec_witness :
    sampleStudent.is_content_authorized =
      (sampleStudent.is_student_approved && sampleStudent.is_paid_current_month) ∧
    sampleTutor.is_content_authorized = decide (sampleTutor.tutor_status = "approved") ∧
    sampleAdmin.is_content_authorized = true :=
  ⟨(is_content_authorized_spec sampleStudent).1 rfl,
   (is_content_authorized_spec sampleTutor).2.1 (Or.inl rfl),
   (is_content_authorized_spec sampleAdmin).2.2 rfl⟩

/-- C10: a user whose role is none of Student, Tutor, Lead Tutor falls
through to the final `return True` (the Admin branch) of
`is_content_authorized`, whatever the role string is. -/
theorem unrecognized_role_is_authorized (u : User)
    (h1 : u.role ≠ "Student") (h2 : u.role ≠ "Tutor") (h3 : u.role ≠ "Lead Tutor") :
    u.is_content_authorized = true := by
  unfold User.is_content_authorized
  rw [if_neg h1, if_neg (not_or.mpr ⟨h2, h3⟩)]

/-- Witness for C10: the unrecognized role `"Moderator"` is granted access
even with every gating flag unfavourable. -/
theorem unrecognized_role_is_authorized_witness :
    mysteryUser.is_content_authorized = true :=
  unrecognized_role_is_authorized mysteryUser
    (by decide) (by decide) (by decide)

/-- C4: an authenticated student who is not content-authorized gets the
`student_content_denied.html` page from `student_content`, and that
response carries no document list (`listedDocuments` is empty — only the
`content` constructor holds documents). -/
theorem unauthorized_student_gets_denied_page (db : DB) (cu : User)
    (hrole : cu.role = "Student") (hauth : cu.is_content_authorized = false) :
    student_content db cu =
      ContentResp.denied "Access denied. Please ensure your Tutor has approved your profile and recorded the monthly payment." ∧
    listedDocuments (student_content db cu) = [] := by
  unfold student_content
  rw [if_neg (fun h => h hrole), if_pos (by simp [hauth])]
  exact ⟨rfl, rfl⟩

/-- Witness for C4: the unapproved fresh student gets the denied page. -/
theorem unauthorized_student_gets_denied_page_witness :
    student_content deniedDB freshStudent =
      ContentResp.denied "Access denied. Please ensure your Tutor has approved your profile and recorded the monthly payment." ∧
    listedDocuments (student_content deniedDB freshStudent) = [] :=
  unauthorized_student_gets_denied_page deniedDB freshStudent rfl (by decide)

/-- C1 (code evaluation at the failing input): the tutor operation
`approve_student` succeeds (success flash) and the tutor operation
`record_payment` succeeds (success flash, ZMW 100), yet
`is_content_authorized()` of the student still returns `False` — `approve_student`
assigned the unmapped attribute `is_approved` instead of the model
column `is_student_approved`, so the approval half of the gate never
becomes true and document access stays locked. -/
theorem approve_then_pay_leaves_student_locked :
    (approve_student scenarioDB scenarioTutor 2).2 =
      Resp.redirect "tutor.dashboard"
        "Stella Student has been approved and is ready for payment." "success" ∧
    (record_payment (approve_student scenarioDB scenarioTutor 2).1
        scenarioTutor 2 (some 100) 20251012).2 =
      Resp.redirect "tutor.dashboard"
        "Payment recorded for Stella Student. Access granted for the current month!"
        "success" ∧
    (findUser (record_payment (approve_student scenarioDB scenarioTutor 2).1
        scenarioTutor 2 (some 100) 20251012).1 2).map User.is_content_authorized =
      some false := by
  decide

/-- C9: invoking `record_payment` with a missing or non-positive
`fee_amount` leaves the database exactly as it was — in particular no
`Payment` row is added and the student keeps the prior
`is_paid_current_month` — and, for an otherwise valid request by the
assigned tutor, the response is the `Invalid fee amount entered.`
danger flash redirect. -/
theorem record_payment_invalid_fee_unchanged (db : DB) (cu : User) (sid : Nat)
    (fee : Option ℚ) (today : Nat)
    (hfee : fee = none ∨ ∃ q, fee = some q ∧ q ≤ 0) :
    (record_payment db cu sid fee today).1 = db ∧
    (∀ s, cu.role = "Tutor" → findUser db sid = some s →
      s.tutor_id = some cu.id → s.role = "Student" →
      (record_payment db cu sid fee today).2 =
        Resp.redirect "tutor.dashboard" "Invalid fee amount entered." "danger") := by
  unfold record_payment
  split
  · next hrole => exact ⟨rfl, fun s hr => absurd hr hrole⟩
  · split
    · next hf =>
        refine ⟨rfl, fun s _ hs => ?_⟩
        rw [hf] at hs
        cases hs
    · next s0 hf =>
        split
        · next hguard =>
            refine ⟨rfl, fun s _ hs h1 h2 => ?_⟩
            rw [hf] at hs
            cases hs
            exact absurd hguard (not_or.mpr ⟨fun h => h h1, fun h => h h2⟩)
        · rcases hfee with h | ⟨q, hq, hq0⟩
          · subst h
            exact ⟨rfl, fun _ _ _ _ _ => rfl⟩
          · subst hq
            split
            · exact ⟨rfl, fun _ _ _ _ _ => rfl⟩
            · next q2 hq2 =>
                cases hq2
                rw [if_pos hq0]
                exact ⟨rfl, fun _ _ _ _ _ => rfl⟩

/-- Witness for C9: a zero fee for the valid scenario student changes
nothing and flashes the invalid-fee message. -/
theorem record_payment_invalid_fee_unchanged_witness :
    (record_payment scenarioDB scenarioTutor 2 (some 0) 20251012).1 = scenarioDB ∧
    (∀ s, scenarioTutor.role = "Tutor" → findUser scenarioDB 2 = some s →
      s.tutor_id = some scenarioTutor.id → s.role = "Student" →
      (record_payment scenarioDB scenarioTutor 2 (some 0) 20251012).2 =
        Resp.redirect "tutor.dashboard" "Invalid fee amount entered." "danger") :=
  record_payment_invalid_fee_unchanged scenarioDB scenarioTutor 2 (some 0) 20251012
    (Or.inr ⟨0, rfl, le_refl 0⟩)

/-- C5: a successful `record_payment` appends exactly one `Payment` row
whose `commission_amount` is the amount times the commission rate in
effect at that moment (`commissionRate` reads the `SystemSetting` row
with id 1 and is `0` when that row is absent), and `manage_settings`
never touches the `Payments` table, so a later rate change leaves every
previously recorded `commission_amount` as it was. -/
theorem record_payment_commission_snapshot (db : DB) (cu : User) (sid : Nat)
    (s : User) (fee : ℚ) (today : Nat)
    (hrole : cu.role = "Tutor") (hfind : findUser db sid = some s)
    (hassigned : s.tutor_id = some cu.id) (hstud : s.role = "Student")
    (hfee : 0 < fee) :
    (record_payment db cu sid (some fee) today).1.payments =
      db.payments ++
        [{ student_id := s.id, tutor_id := cu.id, amount := fee,
           payment_date := today,
           commission_amount := fee * commissionRate db }] ∧
    (∀ db2, db2.setting = none → commissionRate db2 = 0) ∧
    (∀ db2 pct, (manage_settings db2 pct).payments = db2.payments) := by
  refine ⟨?_, fun db2 h => by unfold commissionRate; rw [h], fun db2 pct => ?_⟩
  · unfold record_payment
    split
    · next h => exact absurd hrole h
    · split
      · next hf =>
          rw [hf] at hfind
          cases hfind
      · next s0 hf =>
          rw [hf] at hfind
          cases hfind
          split
          · next hguard =>
              rcases hguard with h | h
              · exact absurd hassigned h
              · exact absurd hstud h
          · split
            · next heq => cases heq
            · next q hq =>
                cases hq
                rw [if_neg (not_le.mpr hfee)]
                rfl
  · unfold manage_settings
    split
    · split <;> rfl
    · rfl

/-- Witness for C5: recording ZMW 200 for the scenario student at the
seeded 10% rate snapshots a ZMW 20 commission; `manage_settings`
preserves payments. -/
theorem record_payment_commission_snapshot_witness :
    (record_payment scenarioDB scenarioTutor 2 (some 200) 20251012).1.payments =
      scenarioDB.payments ++
        [{ student_id := scenarioStudent.id, tutor_id := scenarioTutor.id,
           amount := 200, payment_date := 20251012,
           commission_amount := 200 * commissionRate scenarioDB }] ∧
    (∀ db2, db2.setting = none → commissionRate db2 = 0) ∧
    (∀ db2 pct, (manage_settings db2 pct).payments = db2.payments) :=
  record_payment_commission_snapshot scenarioDB scenarioTutor 2 scenarioStudent
    200 20251012 rfl (by decide) rfl rfl (by norm_num)

/-- C8 (counterexample): the tutor-approval operations live behind the
`lead_tutor_required` decorator, which admits only the `Lead Tutor`
role; the seeded Admin invoking them on a pending tutor is turned away
with the access-denied flash and the database — the tutor still
`pending` — is unchanged.  So the claim that an Admin can run the
approve/reject operations is false on this code. -/
theorem admin_denied_tutor_approval :
    approve_tutor adminDB sampleAdmin 6 =
      (adminDB, Resp.redirect "main.index"
        "Access denied. You must be a Lead Tutor." "danger") ∧
    reject_tutor adminDB sampleAdmin 6 =
      (adminDB, Resp.redirect "main.index"
        "Access denied. You must be a Lead Tutor." "danger") := by
  decide

/-- C8 (amended): the tutor approval workflow is managed by the Lead
Tutor role — `approve_tutor` run by a Lead Tutor sets the `tutor_status`
of a pending tutor to `approved` and `reject_tutor` sets it to
`rejected`. -/
theorem lead_tutor_manages_tutor_approval (db : DB) (cu : User) (uid : Nat)
    (t : User) (hlead : cu.role = "Lead Tutor") (hfind : findUser db uid = some t)
    (htrole : t.role = "Tutor") (hpending : t.tutor_status = "pending") :
    findUser (approve_tutor db cu uid).1 uid =
      some { t with tutor_status := "approved" } ∧
    findUser (reject_tutor db cu uid).1 uid =
      some { t with tutor_status := "rejected" } := by
  constructor
  · unfold approve_tutor
    rw [if_neg (fun h => h hlead)]
    split
    · next hf =>
        rw [hf] at hfind
        cases hfind
    · next t0 hf =>
        rw [hf] at hfind
        cases hfind
        rw [if_pos ⟨htrole, hpending⟩]
        rw [findUser_updateUser db uid
          (fun u => { u with tutor_status := "approved" }) (fun u => rfl), hf]
        rfl
  · unfold reject_tutor
    rw [if_neg (fun h => h hlead)]
    split
    · next hf =>
        rw [hf] at hfind
        cases hfind
    · next t0 hf =>
        rw [hf] at hfind
        cases hfind
        rw [if_pos ⟨htrole, hpending⟩]
        rw [findUser_updateUser db uid
          (fun u => { u with tutor_status := "rejected" }) (fun u => rfl), hf]
        rfl

/-- Witness for the amended C8: the Lead Tutor approves or rejects the
pending tutor and the status lands on `approved` / `rejected`. -/
theorem lead_tutor_manages_tutor_approval_witness :
    findUser (approve_tutor leadDB leadTutorUser 6).1 6 =
      some { pendingTutor with tutor_status := "approved" } ∧
    findUser (reject_tutor leadDB leadTutorUser 6).1 6 =
      some { pendingTutor with tutor_status := "rejected" } :=
  lead_tutor_manages_tutor_approval leadDB leadTutorUser 6 pendingTutor
    rfl (by decide) rfl rfl

/-- C3: `download_document` reaches the file-serving branch only for a
content-authorized student requesting a document whose
`course.category.university_id` equals the `university_id` of the student;
every other outcome is a redirect carrying a flash message; and for an
authorized, university-linked student, `student_content` lists exactly
the documents whose course belongs to a category of the university
of the student. -/
theorem documents_scoped_to_university (db : DB) (cu : User) (did uid : Nat)
    (fp : String) (d : Document) :
    (download_document db cu did = DownloadResp.file fp →
      cu.role = "Student" ∧ cu.is_content_authorized = true ∧
      (findDocument db did).map Document.file_path = some fp ∧
      ((findDocument db did).bind fun doc => documentUniversity db doc) =
        cu.university_id) ∧
    ((download_document db cu did).isFile = false →
      ((download_document db cu did).redirectFlash).isSome = true) ∧
    (cu.role = "Student" → cu.is_content_authorized = true →
      cu.university_id = some uid → uid ≠ 0 →
      (d ∈ listedDocuments (student_content db cu) ↔
        d ∈ db.documents ∧ documentUniversity db d = some uid)) := by
  refine ⟨fun hfp => ?_, fun hnot => ?_, fun hrole hauth huni h0 => ?_⟩
  · unfold download_document at hfp
    split at hfp
    · cases hfp
    · next h1 =>
        split at hfp
        · cases hfp
        · next doc hdoc =>
            split at hfp
            · cases hfp
            · next h2 =>
                split at hfp
                · cases hfp
                · next h3 =>
                    cases hfp
                    refine ⟨not_not.mp h1, by simpa using not_not.mp h2, ?_, ?_⟩
                    · rw [hdoc]
                      rfl
                    · rw [hdoc]
                      exact not_ne_iff.mp h3
  · cases hr : download_document db cu did with
    | redirectIndex m c => rfl
    | redirectContent m c => rfl
    | file p =>
        rw [hr] at hnot
        simp [DownloadResp.isFile] at hnot
  · unfold student_content
    rw [if_neg (fun h => h hrole), if_neg (by simp [hauth])]
    simp only [huni]
    rw [if_neg h0]
    simp [listedDocuments, List.mem_filter]

/-- Witness for C3: the paid student of university 1 is served the sample
document; the unapproved student is redirected with a flash; and the
sample document is listed for the paid student exactly because its
course sits under university 1. -/
theorem documents_scoped_to_university_witness :
    (paidStudent.role = "Student" ∧ paidStudent.is_content_authorized = true ∧
      (findDocument deniedDB 1).map Document.file_path =
        some "documents/1_3_notes.pdf" ∧
      ((findDocument deniedDB 1).bind fun doc => documentUniversity deniedDB doc) =
        paidStudent.university_id) ∧
    ((download_document deniedDB freshStudent 1).redirectFlash).isSome = true ∧
    (sampleDoc ∈ listedDocuments (student_content deniedDB paidStudent) ↔
      sampleDoc ∈ deniedDB.documents ∧
        documentUniversity deniedDB sampleDoc = some 1) :=
  ⟨(documents_scoped_to_university deniedDB paidStudent 1 1
      "documents/1_3_notes.pdf" sampleDoc).1 (by decide),
   (documents_scoped_to_university deniedDB freshStudent 1 1 "" sampleDoc).2.1
      (by decide),
   (documents_scoped_to_university deniedDB paidStudent 1 1 "" sampleDoc).2.2
      rfl (by decide) rfl (by decide)⟩

/-- Every admin operation keeps `(category_id, code)` unique across the
`Courses` table: only `addCourse` touches it, and the route refuses a
duplicate code in the same category before inserting. -/
theorem adminStep_preserves_codeUnique (db : DB) (op : AdminOp)
    (h : coursesCodeUnique db) : coursesCodeUnique (adminStep db op) := by
  cases op with
  | addUniversity name =>
      simp only [adminStep]
      split
      · exact h
      · exact h
  | addCategory uid name =>
      simp only [adminStep]
      split
      · exact h
      · split
        · exact h
        · exact h
  | setCommission pct =>
      simp only [adminStep]
      unfold manage_settings
      split
      · split
        · exact h
        · exact h
      · exact h
  | addCourse cid name code =>
      simp only [adminStep]
      split
      · exact h
      · split
        · next hcode => exact h
        · split
          · exact h
          · next hcat hcode hname =>
              unfold coursesCodeUnique at h ⊢
              rw [List.pairwise_append]
              refine ⟨h, List.pairwise_singleton _ _, ?_⟩
              intro a ha b hb
              rw [List.mem_singleton] at hb
              subst hb
              rintro ⟨hac, hacode⟩
              exact hcode (List.find?_isSome.mpr ⟨a, ha, by simp [hacode, hac]⟩)

/-- Folding admin operations preserves code uniqueness. -/
theorem foldl_adminStep_codeUnique (ops : List AdminOp) (db : DB)
    (h : coursesCodeUnique db) : coursesCodeUnique (ops.foldl adminStep db) := by
  induction ops generalizing db with
  | nil => exact h
  | cons op ops ih => exact ih (adminStep db op) (adminStep_preserves_codeUnique db op h)

/-- C6: `manage_courses` refuses a second course with an existing
`(category_id, code)` (the `Courses` table is left untouched), and every
database reachable from the seeded initial state through the admin
routes has pairwise-distinct `(category_id, code)` over its `Course`
rows. -/
theorem course_codes_unique_per_category (ops : List AdminOp) (db : DB)
    (cid : Nat) (name code : String)
    (hdup : (db.courses.find? (fun c => c.code = code ∧ c.category_id = cid)).isSome = true) :
    coursesCodeUnique (runAdmin ops) ∧
    (adminStep db (AdminOp.addCourse cid name code)).courses = db.courses := by
  constructor
  · exact foldl_adminStep_codeUnique ops initDB (List.Pairwise.nil)
  · simp only [adminStep]
    split
    · rfl
    · rfl

/-- Witness for C6: after the seeded state plus the `courseOps` run (which
includes one refused duplicate) the codes are unique, and re-posting the
code `CSC3000` for category 1 changes no `Course` row. -/
theorem course_codes_unique_per_category_witness :
    coursesCodeUnique (runAdmin courseOps) ∧
    (adminStep (runAdmin courseOps)
      (AdminOp.addCourse 1 "Maths III" "CSC3000")).courses =
      (runAdmin courseOps).courses :=
  course_codes_unique_per_category courseOps (runAdmin courseOps) 1
    "Maths III" "CSC3000" (by decide)

/-- The handler `review_tutor` preserves the at-most-one-review-per-(student, tutor)
invariant: the only inserting branch runs when the duplicate lookup came
back empty. -/
theorem review_tutor_preserves_unique (db : DB) (cu : User) (tid : Nat)
    (form : TutorReviewForm) (submitted : Bool)
    (h : reviewsUniquePerPair db) :
    reviewsUniquePerPair (review_tutor db cu tid form submitted).1 := by
  unfold review_tutor
  split
  · exact h
  · split
    · exact h
    · split
      · exact h
      · split
        · exact h
        · split
          · exact h
          · next hnone =>
              split
              · unfold reviewsUniquePerPair at h ⊢
                rw [List.pairwise_append]
                refine ⟨h, List.pairwise_singleton _ _, ?_⟩
                intro a ha b hb
                rw [List.mem_singleton] at hb
                subst hb
                rintro ⟨hsid, htid2⟩
                exact List.find?_eq_none.mp hnone a ha (by simp [hsid, htid2])
              · exact h

/-- C7: for every (student, tutor) pair at most one `TutorReview` exists —
`review_tutor` preserves the pairwise uniqueness of `(student_id,
tutor_id)`, and a second submission by the assigned student for the same
tutor is refused with the already-submitted warning flash and leaves the
database unchanged. -/
theorem tutor_review_unique_per_pair (db : DB) (cu : User) (tid : Nat)
    (t : User) (form : TutorReviewForm) (submitted : Bool) (r : TutorReview)
    (hinv : reviewsUniquePerPair db) (hrole : cu.role = "Student")
    (hassigned : cu.tutor_id = some tid) (hfind : findUser db tid = some t)
    (htrole : t.role = "Tutor") (hr : r ∈ db.reviews)
    (hrs : r.student_id = cu.id) (hrt : r.tutor_id = tid) :
    reviewsUniquePerPair (review_tutor db cu tid form submitted).1 ∧
    review_tutor db cu tid form submitted =
      (db, ReviewResp.redirectContent
        "You have already submitted a review for this tutor." "warning") := by
  refine ⟨review_tutor_preserves_unique db cu tid form submitted hinv, ?_⟩
  unfold review_tutor
  rw [if_neg (fun h => h hrole), if_neg (fun h => h hassigned)]
  split
  · next hf =>
      rw [hf] at hfind
      cases hfind
  · next t0 hf =>
      rw [hf] at hfind
      cases hfind
      rw [if_neg (fun h => h htrole)]
      split
      · rfl
      · next hnone =>
          exfalso
          exact List.find?_eq_none.mp hnone r hr (by simp [hrs, hrt])

/-- Witness for C7: student 7 re-submitting a review of tutor 3 is refused
and the single existing review stays the only one. -/
theorem tutor_review_unique_per_pair_witness :
    reviewsUniquePerPair (review_tutor reviewDB paidStudent 3 sampleForm true).1 ∧
    review_tutor reviewDB paidStudent 3 sampleForm true =
      (reviewDB, ReviewResp.redirectContent
        "You have already submitted a review for this tutor." "warning") :=
  tutor_review_unique_per_pair reviewDB paidStudent 3 sampleTutor sampleForm true
    sampleReview (by simp [reviewsUniquePerPair, reviewDB]) rfl rfl (by decide)
    rfl (by decide) rfl rfl

end TutaPamodzi
